import Mathlib

/-!
Verification of the p2p payout service against its specification.

Shallow embedding of the TypeScript sources:
  * `src/service/rate.ts`   — multi-source exchange-rate aggregation
  * `src/api/payout.ts`     — payout creation, expiry timer, status query
  * `src/bot/index.ts`      — operator bot: accept, screenshot upload, cancel,
                              short-id mapping

Conventions:
  * JavaScript numbers are modelled as `ℚ` (the values involved are exact
    decimals and the code performs only +, /2 and comparisons on them).
  * Database rows are records; the transaction table is a list of rows,
    looked up by id (`findUnique`) and updated by id (`updateTx`).
  * Each `await`ed store round trip in a handler is one atomic step when
    interleavings matter; purely sequential handlers are single functions.
-/

/- ## Transaction data model (prisma/schema.prisma) -/

inductive TransactionStatus where
  | PENDING
  | ACCEPTED
  | COMPLETED
  | FAILED
  | EXPIRED
  | CANCELLED
deriving DecidableEq

/-- One row of the `Transaction` table (fields the handlers touch). -/
structure Transaction where
  id : String
  amount : ℚ
  status : TransactionStatus
  userId : Option String
  destination : Option String
  callbackUrl : Option String
deriving DecidableEq

/-- One row of the `User` table (fields the handlers touch). -/
structure User where
  id : String
  telegramId : Int
  isAdmin : Bool
  balance : ℚ
deriving DecidableEq

/-- The transaction table. -/
abbrev Store := List Transaction

/-- `db.transaction.findUnique({ where: { id } })`. -/
def findUnique (store : Store) (txId : String) : Option Transaction :=
  store.find? (fun t => t.id == txId)

/-- `db.transaction.update({ where: { id }, data })`: rewrite the row with
the given id, leaving every other row alone. -/
def updateTx (store : Store) (txId : String) (f : Transaction → Transaction) :
    Store :=
  store.map (fun t => if t.id = txId then f t else t)

/- ## Rate aggregator (src/service/rate.ts) -/

/-- `calculateAccurateRate` from `RateService`: sort the samples ascending
(`rates.sort((a, b) => a - b)`, modelled by an ascending insertion sort),
then take the middle element for an odd count and the mean of the two middle
elements for an even count.  The out-of-range default 0 is never reached on
the non-empty lists `updateRates` passes in. -/
def calculateAccurateRate (rates : List ℚ) : ℚ :=
  let sorted := rates.insertionSort (· ≤ ·)
  let mid := sorted.length / 2
  if sorted.length % 2 ≠ 0 then sorted.getD mid 0
  else (sorted.getD (mid - 1) 0 + sorted.getD mid 0) / 2

/-- The persisted COMBINED consensus row for USDT→RUB together with the
in-memory cache entry `rate:RUB:USDT`. -/
structure RateStore where
  consensusRow : Option ℚ
  cacheEntry : Option ℚ
deriving DecidableEq

/-- `RateService.updateRates`, one cycle.  The argument is the outcome of the
concurrent source fetches (`Promise.allSettled`): `some r` for a fulfilled
fetch, `none` for a rejected or schema-invalid one.  Zero successes raises,
which the surrounding `try` turns into a log entry with no write; otherwise
the median is upserted into the COMBINED row and mirrored into the cache. -/
def updateRates (results : List (Option ℚ)) (store : RateStore) : RateStore :=
  let successfulRates := results.filterMap id
  if successfulRates.isEmpty then store
  else
    let accurateRate := calculateAccurateRate successfulRates
    { consensusRow := some accurateRate, cacheEntry := some accurateRate }

/- ## Payout creation (src/api/payout.ts, POST /api/payout/create) -/

/-- Bounds from `src/config.ts`. -/
structure Config where
  MIN_PAYOUT_AMOUNT : ℚ
  MAX_PAYOUT_AMOUNT : ℚ
deriving DecidableEq

/-- `src/constants/banks.ts`: the closed set of supported payout methods. -/
def ALL_BANKS : List String :=
  ["sberbank", "tinkoff", "vtb", "alfa", "gazprombank", "interbank",
   "mts_bank", "ozon_bank", "open", "post_bank", "psb", "raiffeisen",
   "rosbank", "rstb", "sbp", "sovkom", "uralsib", "account_number",
   "humo_uzs", "ziraat", "papara", "uz_card", "kapital", "garanti",
   "enpara", "kuveyt", "ininal", "iban"]

/-- ASCII case folding, as applied by `bankId.toLowerCase()` to the
identifiers at hand (all ASCII). -/
def lowerChar (c : Char) : Char :=
  if 65 ≤ c.toNat ∧ c.toNat ≤ 90 then Char.ofNat (c.toNat + 32) else c

def toLowerStr (s : String) : String := ⟨s.toList.map lowerChar⟩

/-- `validateBankId` from `src/constants/banks.ts`. -/
def validateBankId (bankId : String) : Bool :=
  ALL_BANKS.contains (toLowerStr bankId)

/-- `validateAmount` from `src/api/payout.ts`. -/
def validateAmount (cfg : Config) (amount : ℚ) : Bool :=
  cfg.MIN_PAYOUT_AMOUNT ≤ amount ∧ amount ≤ cfg.MAX_PAYOUT_AMOUNT

/-- `validateTimes` from `src/api/payout.ts`. -/
def validateTimes (expiredTime expiredOfferTime : Int) : Bool :=
  expiredTime < expiredOfferTime ∧ 0 < expiredTime ∧ 0 < expiredOfferTime

/-- Request body of POST /api/payout/create. -/
structure CreateBody where
  destination : String
  amount : ℚ
  walletId : String
  expiredTime : Int
  expiredOfferTime : Int
  callback_url : String
deriving DecidableEq

/-- Reason strings returned by the create handler, named after the Russian
messages in the source. -/
inductive CreateReason where
  | ok                  -- ""
  | unsupportedMethod   -- unsupported payout method
  | badAmount           -- amount must be between MIN and MAX
  | badTimes            -- invalid timestamps
  | noOperators         -- no operators available
deriving DecidableEq

structure CreateResponse where
  external_id : String
  status : Nat          -- 1 success, 2 error
  code : Nat            -- 0, 400, 503
  reason : CreateReason
deriving DecidableEq

/-- Observable outcome of the create handler: the HTTP response, the store it
leaves behind, which operator telegram ids were sent a payout request (in
order), whether the expiry timer was armed, and the callback posts it made
(the handler itself never posts to the callback address). -/
structure CreateResult where
  response : CreateResponse
  store : Store
  notified : List Int
  timerArmed : Bool
  callbacksSent : List String
deriving DecidableEq

/-- The POST /api/payout/create handler.  `users` is the `User` table and
`newId` the freshly generated `TX_<uuid>` id.  Validation happens before any
row is written; with zero eligible operators the new row is flipped to FAILED
and the handler returns before the per-operator send loop is reached. -/
def payoutCreate (cfg : Config) (users : List User) (newId : String)
    (body : CreateBody) (store : Store) : CreateResult :=
  if ¬ validateBankId body.walletId then
    ⟨⟨"", 2, 400, .unsupportedMethod⟩, store, [], false, []⟩
  else if ¬ validateAmount cfg body.amount then
    ⟨⟨"", 2, 400, .badAmount⟩, store, [], false, []⟩
  else if ¬ validateTimes body.expiredTime body.expiredOfferTime then
    ⟨⟨"", 2, 400, .badTimes⟩, store, [], false, []⟩
  else
    let tx : Transaction :=
      { id := newId, amount := body.amount, status := .PENDING,
        userId := none, destination := some body.destination,
        callbackUrl := some body.callback_url }
    let store1 := store ++ [tx]
    let operators :=
      users.filter (fun u => u.isAdmin && body.amount ≤ u.balance)
    if operators.isEmpty then
      ⟨⟨newId, 2, 503, .noOperators⟩,
       updateTx store1 newId (fun t => { t with status := .FAILED }),
       [], false, []⟩
    else
      ⟨⟨newId, 1, 0, .ok⟩, store1, operators.map (·.telegramId), true, []⟩

/- ## Expiry timer (src/api/payout.ts, setTimeout body in /payout/create) -/

/-- The body of the `setTimeout` armed by the create handler: re-read the
transaction, and only if it is still PENDING flip it to EXPIRED and, when a
callback address was supplied (JS truthiness: the empty string counts as
absent), POST a notice there.  A delivery failure (`deliveryOk = false`) is
caught and logged; the EXPIRED write has already happened and stays.  The
second component lists the callback posts attempted, paired with whether
delivery succeeded. -/
def expireTimer (deliveryOk : Bool) (store : Store) (txId : String)
    (callback_url : String) : Store × List (String × Bool) :=
  match findUnique store txId with
  | none => (store, [])
  | some tx =>
    if tx.status = .PENDING then
      (updateTx store txId (fun t => { t with status := .EXPIRED }),
       if callback_url ≠ "" then [(callback_url, deliveryOk)] else [])
    else (store, [])

/- ## Operator bot (src/bot/index.ts) -/

/-- `UserState` from the bot: per-operator in-memory input mode. -/
structure UserState where
  awaitingBalance : Bool
  awaitingOperatorId : Bool
  awaitingScreenshot : Bool
  currentTransactionId : Option String
deriving DecidableEq

/-- `this.userStates`, keyed by telegram id. -/
abbrev UserStates := List (Int × UserState)

def lookupState (states : UserStates) (fromId : Int) : Option UserState :=
  (states.find? (fun p => p.1 == fromId)).map (·.2)

/-- `userStates.set(id, st)`: replace the binding for the id. -/
def setState (states : UserStates) (fromId : Int) (st : UserState) :
    UserStates :=
  (fromId, st) :: states.filter (fun p => p.1 != fromId)

/-- One row of the `Screenshot` table (fields the handlers set). -/
structure Screenshot where
  path : String
  transactionId : String
  userId : String
deriving DecidableEq

/-- The shared state the bot handlers read and write: the transaction table,
the screenshot table, the in-memory per-operator states, the admin messages
sent, and the callback posts made (the bot never posts to the callback
address of any transaction). -/
structure BotState where
  store : Store
  screenshots : List Screenshot
  userStates : UserStates
  adminMsgs : List String
  callbacksSent : List String
deriving DecidableEq

/-- Replies the bot sends back to the acting operator. -/
inductive BotReply where
  | notFound        -- transaction-not-found reply
  | staleMapping    -- short id did not resolve: request is stale
  | stale           -- transaction no longer available
  | userNotFound    -- operator row missing
  | accepted        -- acceptance confirmed, awaiting screenshot
  | saved           -- screenshot stored, transaction marked completed
  | ignored         -- handler returned without replying
deriving DecidableEq

/- ### Accept (handleAcceptPayout), step-by-step

`handleAcceptPayout` makes three store round trips that decide the outcome:
the outer `findUnique` with its PENDING check, then — inside
`db.$transaction`, which runs at the default read-committed isolation of
the store and therefore does not serialize its reads against concurrent
writers — a second `findUnique` with the same check (a mismatch throws
"Transaction is no longer available", reported as a stale reply), and
finally an `update` keyed on the id alone whose data sets the operator,
ACCEPTED and the destination.  Each round trip is one atomic step here so
that concurrent accept attempts can interleave exactly as the event loop
allows. -/

inductive AcceptPhase where
  | outer                    -- about to run the outer findUnique
  | inner                    -- about to run the findUnique inside db.$transaction
  | write                    -- observed PENDING in the transaction, about to update
  | finished (r : BotReply)
deriving DecidableEq

/-- One atomic store round trip of an accept attempt by operator `opUserId`
for transaction `txId` with destination `dest`. -/
def acceptStep (opUserId dest txId : String) (store : Store)
    (ph : AcceptPhase) : Store × AcceptPhase :=
  match ph with
  | .outer =>
    match findUnique store txId with
    | none => (store, .finished .notFound)
    | some tx =>
      if tx.status ≠ .PENDING then (store, .finished .stale)
      else (store, .inner)
  | .inner =>
    match findUnique store txId with
    | none => (store, .finished .stale)
    | some tx =>
      if tx.status ≠ .PENDING then (store, .finished .stale)
      else (store, .write)
  | .write =>
    (updateTx store txId (fun t =>
       { t with status := .ACCEPTED, userId := some opUserId,
                destination := some dest }),
     .finished .accepted)
  | .finished r => (store, .finished r)

/-- Run two accept attempts A and B against the shared store under a
schedule: `true` advances attempt A by one atomic step, `false` advances
attempt B. -/
def runTwo (opA destA opB destB txId : String) (sched : List Bool)
    (store : Store) (pa pb : AcceptPhase) :
    Store × AcceptPhase × AcceptPhase :=
  match sched with
  | [] => (store, pa, pb)
  | true :: rest =>
    let (s1, pa1) := acceptStep opA destA txId store pa
    runTwo opA destA opB destB txId rest s1 pa1 pb
  | false :: rest =>
    let (s1, pb1) := acceptStep opB destB txId store pb
    runTwo opA destA opB destB txId rest s1 pa pb1

/-- `handleAcceptPayout` run to completion with no interleaving: the whole
read–check–recheck–update sequence of `acceptStep` against a quiescent
store, plus the `userStates` write that arms the screenshot upload on
success. -/
def handleAcceptPayout (bs : BotState) (fromId : Int) (opUserId : String)
    (txId dest : String) : BotState × BotReply :=
  match findUnique bs.store txId with
  | none => (bs, .notFound)
  | some tx =>
    if tx.status ≠ .PENDING then (bs, .stale)
    else
      let store1 := updateTx bs.store txId (fun t =>
        { t with status := .ACCEPTED, userId := some opUserId,
                 destination := some dest })
      let states1 := setState bs.userStates fromId
        { awaitingBalance := false, awaitingOperatorId := false,
          awaitingScreenshot := true, currentTransactionId := some txId }
      ({ bs with store := store1, userStates := states1 }, .accepted)

/- ### Screenshot upload (handleScreenshotUpload)

The handler first reads the in-memory `userState` and returns silently
unless it is awaiting a screenshot with a current transaction id; then —
after several awaited steps (getFile, download, user lookup) during which
other handlers may run — it unconditionally inserts the screenshot row and
sets the status of the transaction to COMPLETED.  No transaction status
check and no assigned-operator check is made at any point, and nothing is
posted to the callback address of the transaction (only an admin chat
message is sent).
The two phases are modelled separately; `handleScreenshotUpload` is their
uninterrupted composition. -/

/-- Phase 1: the `userState` guard; returns the captured transaction id when
the upload proceeds.  The captured value survives a concurrent
`userStates.set` because the map stores a fresh object. -/
def screenshotCheckPhase (bs : BotState) (fromId : Int) : Option String :=
  match lookupState bs.userStates fromId with
  | none => none
  | some st => if st.awaitingScreenshot then st.currentTransactionId else none

/-- Phase 2: user lookup, screenshot insert, unconditional status update to
COMPLETED, state reset, operator reply and admin message. -/
def screenshotWritePhase (users : List User) (bs : BotState) (fromId : Int)
    (txId fileName : String) : BotState × BotReply :=
  match users.find? (fun u => u.telegramId == fromId) with
  | none => (bs, .userNotFound)
  | some user =>
    ({ bs with
        screenshots :=
          bs.screenshots ++ [{ path := fileName, transactionId := txId,
                               userId := user.id }],
        store := updateTx bs.store txId (fun t =>
          { t with status := .COMPLETED }),
        userStates := setState bs.userStates fromId
          { awaitingBalance := false, awaitingOperatorId := false,
            awaitingScreenshot := false, currentTransactionId := none },
        adminMsgs := bs.adminMsgs ++ [txId] },
     .saved)

/-- `handleScreenshotUpload` run without interleaving. -/
def handleScreenshotUpload (users : List User) (bs : BotState)
    (fromId : Int) (fileName : String) : BotState × BotReply :=
  match screenshotCheckPhase bs fromId with
  | none => (bs, .ignored)
  | some txId => screenshotWritePhase users bs fromId txId fileName

/- ### Cancel (the cancel action handler) -/

/-- The `cancel_action` handler: if the in-memory state of the operator
holds a current transaction id, set that transaction to CANCELLED with an
update keyed on the id alone; in every case reset the operator state.
Nothing is posted to the callback address of the transaction. -/
def cancelAction (bs : BotState) (fromId : Int) : BotState :=
  let reset : UserState :=
    { awaitingBalance := false, awaitingOperatorId := false,
      awaitingScreenshot := false, currentTransactionId := none }
  let bs1 :=
    match lookupState bs.userStates fromId with
    | some st =>
      match st.currentTransactionId with
      | some txId =>
        { bs with store := updateTx bs.store txId (fun t =>
            { t with status := .CANCELLED }) }
      | none => bs
    | none => bs
  { bs1 with userStates := setState bs1.userStates fromId reset }

/- ### Short-id mapping (sendPayoutRequest / the ap action handler) -/

/-- `payoutData.transactionId.substring(0, 11)` from `sendPayoutRequest`:
the first 11 characters (the whole id when it is shorter). -/
def shortTxId (fullId : String) : String :=
  ⟨fullId.toList.take 11⟩

/-- `this.transactionMappings`, a JS `Map` modelled as an association list
where the newest binding for a key shadows older ones. -/
abbrev TxMappings := List (String × String)

/-- `saveTransactionMapping` / `Map.set`. -/
def mapSet (m : TxMappings) (k v : String) : TxMappings :=
  (k, v) :: m

/-- `getFullTransactionId` / `Map.get`. -/
def mapGet (m : TxMappings) (k : String) : Option String :=
  (m.find? (fun p => p.1 == k)).map (·.2)

/-- The mapping state after a sequence of dispatches (each successful
`sendPayoutRequest` records `shortTxId id → id`). -/
def buildMappings (dispatches : List String) : TxMappings :=
  dispatches.foldl (fun m d => mapSet m (shortTxId d) d) []

/-- The `ap:<shortTxId>:<shortDestination>` action handler: resolve the
short id; an unresolved id gets a stale reply and touches nothing; a
resolved id is looked up in the store (not-found reply if the row is gone)
and handed to `handleAcceptPayout` with the stored destination. -/
def apAction (mappings : TxMappings) (bs : BotState) (fromId : Int)
    (opUserId : String) (shortId : String) : BotState × BotReply :=
  match mapGet mappings shortId with
  | none => (bs, .staleMapping)
  | some fullId =>
    match findUnique bs.store fullId with
    | none => (bs, .notFound)
    | some tx =>
      handleAcceptPayout bs fromId opUserId fullId (tx.destination.getD "")

/- ## Helper lemmas -/

/-- Sorting is unique: the ascending insertion sort of `l` is the one sorted
list that `l` is a permutation of. -/
theorem insertionSort_eq_of_sorted_perm (l m : List ℚ) (hp : l.Perm m)
    (hs : m.Sorted (· ≤ ·)) : l.insertionSort (· ≤ ·) = m :=
  List.eq_of_perm_of_sorted ((List.perm_insertionSort _ l).trans hp)
    (List.sorted_insertionSort _ l) hs

/-- A row appended to a table that does not yet contain its id is found by
its id. -/
theorem findUnique_append_fresh (store : Store) (tx : Transaction)
    (txId : String) (hfresh : findUnique store txId = none)
    (hid : tx.id = txId) : findUnique (store ++ [tx]) txId = some tx := by
  unfold findUnique at *
  rw [List.find?_append, hfresh, Option.none_or, List.find?_cons]
  simp [hid]

/-- Updating the row with a given id rewrites exactly that row, provided the
update does not change the id column. -/
theorem findUnique_updateTx (store : Store) (txId : String)
    (f : Transaction → Transaction) (hf : ∀ t, (f t).id = t.id)
    (t : Transaction) (hfind : findUnique store txId = some t) :
    findUnique (updateTx store txId f) txId = some (f t) := by
  induction store with
  | nil => simp [findUnique] at hfind
  | cons a rest ih =>
    by_cases ha : a.id = txId
    · have hbeq : (a.id == txId) = true := by simpa using ha
      have hat : a = t := by
        simpa [findUnique, List.find?_cons, hbeq] using hfind
      subst hat
      have hbeq2 : ((f a).id == txId) = true := by simp [hf, ha]
      simp [findUnique, updateTx, List.find?_cons, ha, hbeq2]
    · have hbeq : (a.id == txId) = false := by simpa using ha
      have hfind2 : findUnique rest txId = some t := by
        simpa [findUnique, List.find?_cons, hbeq] using hfind
      have hrec := ih hfind2
      simpa [findUnique, updateTx, List.find?_cons, ha, hbeq] using hrec

/-- Reading a key after one `mapSet`. -/
theorem mapGet_mapSet (m : TxMappings) (k v s : String) :
    mapGet (mapSet m k v) s = if k == s then some v else mapGet m s := by
  by_cases h : (k == s) = true
  · simp [mapGet, mapSet, List.find?_cons, h]
  · simp only [Bool.not_eq_true] at h
    simp [mapGet, mapSet, List.find?_cons, h]

/-- Accumulating dispatches into the mapping resolves a short id to the most
recent dispatch carrying it, falling back to the accumulator. -/
theorem mapGet_foldl (ds : List String) :
    ∀ (acc : TxMappings) (s : String),
    mapGet (ds.foldl (fun m d => mapSet m (shortTxId d) d) acc) s
      = (ds.reverse.find? (fun d => shortTxId d == s)).or (mapGet acc s) := by
  induction ds with
  | nil => intro acc s; simp
  | cons d rest ih =>
    intro acc s
    rw [List.foldl_cons, ih, List.reverse_cons, List.find?_append]
    by_cases h : (shortTxId d == s) = true
    · simp [mapGet_mapSet, h, List.find?_cons, Option.or_assoc]
    · simp only [Bool.not_eq_true] at h
      simp [mapGet_mapSet, h, List.find?_cons]

/-- Resolution over the whole dispatch history is last-write-wins. -/
theorem mapGet_buildMappings (ds : List String) (s : String) :
    mapGet (buildMappings ds) s
      = ds.reverse.find? (fun d => shortTxId d == s) := by
  rw [buildMappings, mapGet_foldl]
  simp [mapGet]

/-- A full id whose short form is `s` literally begins with `s`. -/
theorem shortTxId_begins (d s : String) (h : shortTxId d = s) :
    ∃ r, d = s ++ r := by
  refine ⟨⟨d.toList.drop 11⟩, ?_⟩
  subst h
  apply String.ext
  show d.data = (String.mk (d.toList.take 11) ++ String.mk (d.toList.drop 11)).data
  rw [String.data_append]
  exact (List.take_append_drop 11 d.data).symm

/- ## Claim theorems -/

/-- C7: for every non-empty list of successful rate samples the consensus
rate is the median — for any ascending ordering `m` of the samples, an odd
count takes the middle element and an even count averages the two middle
ones; in particular [10, 12, 14] yields 12, [10, 12] yields 11, and one
source failing out of three still yields the median of the remaining two. -/
theorem C7_consensus_is_median :
    (∀ (l m : List ℚ), l ≠ [] → l.Perm m → m.Sorted (· ≤ ·) →
      calculateAccurateRate l =
        if m.length % 2 = 1 then m.getD (m.length / 2) 0
        else (m.getD (m.length / 2 - 1) 0 + m.getD (m.length / 2) 0) / 2)
    ∧ calculateAccurateRate [10, 12, 14] = 12
    ∧ calculateAccurateRate [10, 12] = 11
    ∧ updateRates [some 14, none, some 10] ⟨none, none⟩
        = ⟨some 12, some 12⟩ := by
  refine ⟨?_, by decide, ?_, ?_⟩
  · intro l m _hne hp hs
    unfold calculateAccurateRate
    rw [insertionSort_eq_of_sorted_perm l m hp hs]
    have hiff : (m.length % 2 ≠ 0) ↔ (m.length % 2 = 1) := by omega
    exact if_congr hiff rfl rfl
  · norm_num [calculateAccurateRate, List.insertionSort, List.orderedInsert]
  · norm_num [updateRates, calculateAccurateRate, List.insertionSort,
      List.orderedInsert, List.filterMap]

/-- C7 witness: the general median property applied to the concrete samples
[3, 1], whose ascending ordering is [1, 3]. -/
theorem C7_witness : calculateAccurateRate [3, 1] = 2 := by
  have h := C7_consensus_is_median.1 [3, 1] [1, 3] (by decide) (by decide)
    (by decide)
  rw [h]
  norm_num

/-- C8: a cycle in which zero sources succeed writes nothing — the COMBINED
consensus row and the cache entry are exactly what they were (so in
particular no zero or null rate is ever written). -/
theorem C8_no_success_no_write :
    ∀ (results : List (Option ℚ)) (store : RateStore),
      results.filterMap id = [] → updateRates results store = store := by
  intro results store h
  unfold updateRates
  simp [h]

/-- C8 witness: both sources failing leaves a prior consensus of 95
untouched. -/
theorem C8_witness :
    updateRates [none, none] ⟨some 95, some 96⟩ = ⟨some 95, some 96⟩ :=
  C8_no_success_no_write [none, none] ⟨some 95, some 96⟩ (by decide)

/-- C9: the expiry timer fired on a transaction that is no longer PENDING is
a no-op — the store is unchanged, no callback is posted, and there is no
error; in particular firing it twice on an already-EXPIRED transaction is a
no-op both times with no double callback. -/
theorem C9_expire_noop_on_non_pending :
    ∀ (ok ok2 : Bool) (store : Store) (txId url : String) (tx : Transaction),
      findUnique store txId = some tx → tx.status ≠ .PENDING →
      expireTimer ok store txId url = (store, [])
      ∧ expireTimer ok2 (expireTimer ok store txId url).1 txId url
          = (store, []) := by
  intro ok ok2 store txId url tx hfind hst
  have h1 : expireTimer ok store txId url = (store, []) := by
    unfold expireTimer
    rw [hfind]
    simp [hst]
  refine ⟨h1, ?_⟩
  rw [h1]
  unfold expireTimer
  rw [hfind]
  simp [hst]

def txC9 : Transaction :=
  { id := "T9", amount := 200, status := .EXPIRED, userId := none,
    destination := none, callbackUrl := some "cb9" }

/-- C9 witness: the timer fired twice on an EXPIRED transaction with a
callback address changes nothing and posts nothing either time. -/
theorem C9_witness :
    expireTimer true [txC9] "T9" "cb9" = ([txC9], [])
    ∧ expireTimer false (expireTimer true [txC9] "T9" "cb9").1 "T9" "cb9"
        = ([txC9], []) :=
  C9_expire_noop_on_non_pending true false [txC9] "T9" "cb9" txC9
    (by decide) (by decide)

/-- C6: a creation request whose amount lies outside
[MIN_PAYOUT_AMOUNT, MAX_PAYOUT_AMOUNT] gets a validation error (status 2,
HTTP code 400) and the transaction table is left exactly as it was, while
every amount inside the interval passes the amount check. -/
theorem C6_amount_validation :
    (∀ (cfg : Config) (users : List User) (newId : String)
       (body : CreateBody) (store : Store),
      ¬ (cfg.MIN_PAYOUT_AMOUNT ≤ body.amount
          ∧ body.amount ≤ cfg.MAX_PAYOUT_AMOUNT) →
      (payoutCreate cfg users newId body store).store = store
      ∧ (payoutCreate cfg users newId body store).response.status = 2
      ∧ (payoutCreate cfg users newId body store).response.code = 400)
    ∧ (∀ (cfg : Config) (a : ℚ), cfg.MIN_PAYOUT_AMOUNT ≤ a →
        a ≤ cfg.MAX_PAYOUT_AMOUNT → validateAmount cfg a = true) := by
  constructor
  · intro cfg users newId body store h
    have hva : validateAmount cfg body.amount = false := by
      simp only [validateAmount, decide_eq_false_iff_not]
      exact h
    by_cases hb : validateBankId body.walletId = true
    · simp [payoutCreate, hb, hva]
    · simp only [Bool.not_eq_true] at hb
      simp [payoutCreate, hb]
  · intro cfg a h1 h2
    simp [validateAmount]
    exact ⟨h1, h2⟩

def cfgW : Config := ⟨100, 1000000⟩

def bodyC6 : CreateBody :=
  { destination := "4276", amount := 5, walletId := "sberbank",
    expiredTime := 100, expiredOfferTime := 200, callback_url := "cb6" }

/-- C6 witness: amount 5 with bounds [100, 1000000] is rejected with code
400 leaving an empty table empty, and amount 500 passes the check. -/
theorem C6_witness :
    (payoutCreate cfgW [] "T6" bodyC6 []).store = []
    ∧ (payoutCreate cfgW [] "T6" bodyC6 []).response.status = 2
    ∧ (payoutCreate cfgW [] "T6" bodyC6 []).response.code = 400
    ∧ validateAmount cfgW 500 = true := by
  obtain ⟨h1, h2, h3⟩ := C6_amount_validation.1 cfgW [] "T6" bodyC6 []
    (by norm_num [cfgW, bodyC6])
  exact ⟨h1, h2, h3,
    C6_amount_validation.2 cfgW 500 (by norm_num [cfgW]) (by norm_num [cfgW])⟩

/-- C5: on a request that passes validation, zero eligible operators (admin
flag set and balance covering the amount) means the freshly persisted row is
flipped to FAILED with nobody notified and a distinguishable no-operators
failure response, while at least one eligible operator means a success
response carrying the new id, with exactly the eligible operators
notified. -/
theorem C5_no_operators_failed :
    ∀ (cfg : Config) (users : List User) (newId : String)
      (body : CreateBody) (store : Store),
      validateBankId body.walletId = true →
      validateAmount cfg body.amount = true →
      validateTimes body.expiredTime body.expiredOfferTime = true →
      findUnique store newId = none →
      (users.filter (fun u => u.isAdmin && body.amount ≤ u.balance) = [] →
        (payoutCreate cfg users newId body store).response.status = 2
        ∧ (payoutCreate cfg users newId body store).response.code = 503
        ∧ (payoutCreate cfg users newId body store).response.reason
            = .noOperators
        ∧ (payoutCreate cfg users newId body store).response.external_id
            = newId
        ∧ (payoutCreate cfg users newId body store).notified = []
        ∧ ∃ t, findUnique (payoutCreate cfg users newId body store).store
              newId = some t ∧ t.status = .FAILED)
      ∧ (users.filter (fun u => u.isAdmin && body.amount ≤ u.balance) ≠ [] →
        (payoutCreate cfg users newId body store).response.status = 1
        ∧ (payoutCreate cfg users newId body store).response.code = 0
        ∧ (payoutCreate cfg users newId body store).response.external_id
            = newId
        ∧ (payoutCreate cfg users newId body store).notified
            = (users.filter (fun u => u.isAdmin && body.amount ≤ u.balance)
                ).map (·.telegramId)
        ∧ (payoutCreate cfg users newId body store).timerArmed = true
        ∧ ∃ t, findUnique (payoutCreate cfg users newId body store).store
              newId = some t ∧ t.status = .PENDING) := by
  intro cfg users newId body store hbank hamount htimes hfresh
  constructor
  · intro hE
    simp only [payoutCreate, hbank, hamount, htimes, not_true_eq_false,
      if_false, hE, List.isEmpty_nil, if_true]
    refine ⟨trivial, trivial, trivial, trivial, trivial, ?_⟩
    refine ⟨{ id := newId, amount := body.amount, status := .FAILED,
              userId := none, destination := some body.destination,
              callbackUrl := some body.callback_url }, ?_, rfl⟩
    exact findUnique_updateTx _ newId
      (fun t => { t with status := .FAILED }) (fun t => rfl)
      { id := newId, amount := body.amount, status := .PENDING,
        userId := none, destination := some body.destination,
        callbackUrl := some body.callback_url }
      (findUnique_append_fresh store
        { id := newId, amount := body.amount, status := .PENDING,
          userId := none, destination := some body.destination,
          callbackUrl := some body.callback_url } newId hfresh rfl)
  · intro hNE
    have hne : (users.filter
        (fun u => u.isAdmin && body.amount ≤ u.balance)).isEmpty = false := by
      simpa [List.isEmpty_iff] using hNE
    simp only [payoutCreate, hbank, hamount, htimes, not_true_eq_false,
      if_false, hne, Bool.false_eq_true]
    refine ⟨trivial, trivial, trivial, trivial, trivial, ?_⟩
    refine ⟨{ id := newId, amount := body.amount, status := .PENDING,
              userId := none, destination := some body.destination,
              callbackUrl := some body.callback_url }, ?_, rfl⟩
    exact findUnique_append_fresh store
      { id := newId, amount := body.amount, status := .PENDING,
        userId := none, destination := some body.destination,
        callbackUrl := some body.callback_url } newId hfresh rfl

def bodyW : CreateBody :=
  { destination := "4276", amount := 500, walletId := "sberbank",
    expiredTime := 100, expiredOfferTime := 200, callback_url := "cbW" }

def opW : User :=
  { id := "u1", telegramId := 77, isAdmin := true, balance := 1000 }

def txC1 : Transaction :=
  { id := "TA", amount := 500, status := .PENDING, userId := none,
    destination := some "d0", callbackUrl := some "cb1" }

def txC1accA : Transaction :=
  { id := "TA", amount := 500, status := .ACCEPTED, userId := some "opA",
    destination := some "dA", callbackUrl := some "cb1" }

def txC1accB : Transaction :=
  { id := "TA", amount := 500, status := .ACCEPTED, userId := some "opB",
    destination := some "dB", callbackUrl := some "cb1" }

/-- C1: the claim says acceptance is decided by one atomic conditional
store update, so that of N racing accepts exactly one wins and the rest get
a stale-state failure.  The code instead re-reads and then updates in two
separate store round trips (`findUnique` then an `update` keyed on the id
alone inside `db.$transaction`, which at the default read-committed
isolation of the store does not serialize the pair).  Interleaving two accept attempts
read–read–write–write makes both report success, with the second write
silently overwriting the first acceptance — two winners, contradicting the
claim; only the fully serialized schedule produces the claimed one-winner /
one-stale outcome. -/
theorem C1_accept_race_two_winners :
    runTwo "opA" "dA" "opB" "dB" "TA"
      [true, false, true, false, true, false] [txC1] .outer .outer
      = ([txC1accB], .finished .accepted, .finished .accepted)
    ∧ runTwo "opA" "dA" "opB" "dB" "TA"
      [true, true, true, false] [txC1] .outer .outer
      = ([txC1accA], .finished .accepted, .finished .stale) := by decide

def opC2 : User :=
  { id := "u1", telegramId := 10, isAdmin := true, balance := 1000 }

def txC2 : Transaction :=
  { id := "TB", amount := 500, status := .ACCEPTED, userId := some "u1",
    destination := some "d2", callbackUrl := some "cb2" }

def stC2 : UserState :=
  { awaitingBalance := false, awaitingOperatorId := false,
    awaitingScreenshot := true, currentTransactionId := some "TB" }

def bsC2 : BotState :=
  { store := [txC2], screenshots := [], userStates := [(10, stC2)],
    adminMsgs := [], callbacksSent := [] }

/-- C2: the claim says a transaction in a terminal state is never mutated
again and any attempt fails with a stale-state condition.  The screenshot
upload handler, however, checks only the in-memory operator state — never
the stored status — before writing COMPLETED.  Concretely: the upload by
operator 10 for the ACCEPTED transaction TB passes its in-memory check;
the cancel action then lands first, making TB CANCELLED (terminal); the
write phase of the upload still runs, flips the terminal transaction to
COMPLETED and reports success. -/
theorem C2_terminal_state_mutated :
    screenshotCheckPhase bsC2 10 = some "TB"
    ∧ (findUnique (cancelAction bsC2 10).store "TB").map (·.status)
        = some .CANCELLED
    ∧ (screenshotWritePhase [opC2] (cancelAction bsC2 10) 10 "TB" "f.jpg").2
        = .saved
    ∧ (findUnique
        (screenshotWritePhase [opC2] (cancelAction bsC2 10) 10 "TB"
          "f.jpg").1.store "TB").map (·.status)
        = some .COMPLETED := by decide

def opC3a : User :=
  { id := "u3a", telegramId := 20, isAdmin := true, balance := 1000 }

def opC3b : User :=
  { id := "u3b", telegramId := 21, isAdmin := true, balance := 1000 }

def txC3 : Transaction :=
  { id := "TC", amount := 300, status := .ACCEPTED, userId := some "u3a",
    destination := some "d3", callbackUrl := some "cb3" }

def txC3c : Transaction :=
  { id := "TCC", amount := 300, status := .CANCELLED, userId := some "u3a",
    destination := some "d3", callbackUrl := some "cb3" }

def stC3 : UserState :=
  { awaitingBalance := false, awaitingOperatorId := false,
    awaitingScreenshot := true, currentTransactionId := some "TCC" }

def bsC3 : BotState :=
  { store := [txC3, txC3c], screenshots := [], userStates := [(20, stC3)],
    adminMsgs := [], callbacksSent := [] }

/-- C3 counterexample: the claim says a proof submission from a
non-assigned operator returns an Unauthorized error, and a submission when
the state is not ACCEPTED fails with a stale-state error.  In the code
operator 21 (not assigned, no awaiting state) gets no error reply at all —
the upload is silently dropped — and the submission by operator 20 for the
CANCELLED transaction TCC is accepted and sets it COMPLETED instead of
failing. -/
theorem C3_counterexample :
    handleScreenshotUpload [opC3a, opC3b] bsC3 21 "g.jpg" = (bsC3, .ignored)
    ∧ (handleScreenshotUpload [opC3a, opC3b] bsC3 20 "h.jpg").2 = .saved
    ∧ (findUnique
        (handleScreenshotUpload [opC3a, opC3b] bsC3 20 "h.jpg").1.store
        "TCC").map (·.status) = some .COMPLETED := by decide

/-- C3 amended: a proof submission succeeds exactly when the in-memory
state of the submitting operator is awaiting a screenshot for a transaction
and the operator row exists; neither the stored state nor the assigned
operator is consulted.  A submission from an operator without such state is
silently ignored (no Unauthorized reply) and leaves everything unchanged;
on success the screenshot row is persisted and that transaction is set to
COMPLETED whatever its current state, with no callback posted. -/
theorem C3_amended_upload_guard :
    ∀ (users : List User) (bs : BotState) (fromId : Int) (fileName : String),
      (screenshotCheckPhase bs fromId = none →
        handleScreenshotUpload users bs fromId fileName = (bs, .ignored))
      ∧ (∀ txId user, screenshotCheckPhase bs fromId = some txId →
          users.find? (fun u => u.telegramId == fromId) = some user →
          (handleScreenshotUpload users bs fromId fileName).2 = .saved
          ∧ (handleScreenshotUpload users bs fromId fileName).1.store
              = updateTx bs.store txId
                  (fun t => { t with status := .COMPLETED })
          ∧ (handleScreenshotUpload users bs fromId fileName).1.screenshots
              = bs.screenshots
                ++ [{ path := fileName, transactionId := txId,
                      userId := user.id }]
          ∧ (handleScreenshotUpload users bs fromId fileName).1.callbacksSent
              = bs.callbacksSent) := by
  intro users bs fromId fileName
  constructor
  · intro h
    simp [handleScreenshotUpload, h]
  · intro txId user h hu
    simp [handleScreenshotUpload, h, screenshotWritePhase, hu]

/-- C3 witness: the amended statement applied to the upload by operator 20
for the CANCELLED transaction TCC. -/
theorem C3_witness :
    (handleScreenshotUpload [opC3a] bsC3 20 "w.jpg").2 = .saved
    ∧ (handleScreenshotUpload [opC3a] bsC3 20 "w.jpg").1.store
        = updateTx bsC3.store "TCC"
            (fun t => { t with status := .COMPLETED }) := by
  have h := (C3_amended_upload_guard [opC3a] bsC3 20 "w.jpg").2 "TCC" opC3a
    (by decide) (by decide)
  exact ⟨h.1, h.2.1⟩

def opC4 : User :=
  { id := "u4", telegramId := 30, isAdmin := true, balance := 2000 }

def txC4 : Transaction :=
  { id := "TD", amount := 700, status := .ACCEPTED, userId := some "u4",
    destination := some "d4", callbackUrl := some "cb4" }

def stC4 : UserState :=
  { awaitingBalance := false, awaitingOperatorId := false,
    awaitingScreenshot := true, currentTransactionId := some "TD" }

def bsC4 : BotState :=
  { store := [txC4], screenshots := [], userStates := [(30, stC4)],
    adminMsgs := [], callbacksSent := [] }

/-- C4 counterexample: the claim says every transition into a terminal
state posts exactly one callback to the callback address of the
transaction.
Transaction TD carries the callback address "cb4", yet its ACCEPTED →
COMPLETED transition through the screenshot handler posts nothing. -/
theorem C4_counterexample :
    (handleScreenshotUpload [opC4] bsC4 30 "r.jpg").2 = .saved
    ∧ (findUnique (handleScreenshotUpload [opC4] bsC4 30 "r.jpg").1.store
        "TD").map (·.status) = some .COMPLETED
    ∧ (handleScreenshotUpload [opC4] bsC4 30 "r.jpg").1.callbacksSent
        = [] := by decide

/-- C4 amended: only the PENDING → EXPIRED expiry transition posts a
callback — exactly one, when an address was supplied, on a best-effort
basis (the EXPIRED write is the same whether or not delivery succeeds); the
COMPLETED, FAILED (no-operators) and CANCELLED transitions post none. -/
theorem C4_amended_only_expiry_posts :
    (∀ (ok : Bool) (store : Store) (txId url : String) (tx : Transaction),
      findUnique store txId = some tx → tx.status = .PENDING → url ≠ "" →
      expireTimer ok store txId url
        = (updateTx store txId (fun t => { t with status := .EXPIRED }),
           [(url, ok)]))
    ∧ (∀ (users : List User) (bs : BotState) (fromId : Int)
         (fileName : String),
        (handleScreenshotUpload users bs fromId fileName).1.callbacksSent
          = bs.callbacksSent)
    ∧ (∀ (cfg : Config) (users : List User) (newId : String)
         (body : CreateBody) (store : Store),
        (payoutCreate cfg users newId body store).callbacksSent = [])
    ∧ (∀ (bs : BotState) (fromId : Int),
        (cancelAction bs fromId).callbacksSent = bs.callbacksSent) := by
  refine ⟨?_, ?_, ?_, ?_⟩
  · intro ok store txId url tx hfind hst hurl
    unfold expireTimer
    rw [hfind]
    simp [hst, hurl]
  · intro users bs fromId fileName
    unfold handleScreenshotUpload
    cases hc : screenshotCheckPhase bs fromId with
    | none => rfl
    | some txId =>
      unfold screenshotWritePhase
      cases hu : users.find? (fun u => u.telegramId == fromId) with
      | none => rfl
      | some user => rfl
  · intro cfg users newId body store
    unfold payoutCreate
    split
    · rfl
    · split
      · rfl
      · split
        · rfl
        · dsimp only
          split
          · rfl
          · rfl
  · intro bs fromId
    unfold cancelAction
    rcases hsl : lookupState bs.userStates fromId with _ | st
    · simp [hsl]
    · rcases hct : st.currentTransactionId with _ | txId
      · simp [hsl, hct]
      · simp [hsl, hct]

def txC4p : Transaction :=
  { id := "TE", amount := 100, status := .PENDING, userId := none,
    destination := some "d5", callbackUrl := some "cb5" }

/-- C4 witness: the amended statement at a concrete PENDING transaction
with callback address "cb5": expiry posts exactly one callback and the
EXPIRED write stands even when delivery fails. -/
theorem C4_witness :
    expireTimer false [txC4p] "TE" "cb5"
      = (updateTx [txC4p] "TE" (fun t => { t with status := .EXPIRED }),
         [("cb5", false)]) :=
  C4_amended_only_expiry_posts.1 false [txC4p] "TE" "cb5" txC4p (by decide)
    (by decide) (by decide)

/-- C10: the short id built at dispatch is the 11-character truncation
"TX_" + first 8 characters of the uuid part of the generated id; resolution
over
the in-memory mapping is last-write-wins over the dispatch history (the
resolved full id always begins with the short id); an unrecorded short id
resolves to nothing, in which case the accept action replies that the
request is stale and mutates nothing. -/
theorem C10_short_id_mapping :
    (∀ u : String, shortTxId ("TX_" ++ u)
        = "TX_" ++ (⟨u.toList.take 8⟩ : String))
    ∧ (∀ (ds : List String) (s : String),
        mapGet (buildMappings ds) s
          = ds.reverse.find? (fun d => shortTxId d == s))
    ∧ (∀ (ds : List String) (s d : String),
        mapGet (buildMappings ds) s = some d →
        shortTxId d = s ∧ ∃ r, d = s ++ r)
    ∧ (∀ (mappings : TxMappings) (bs : BotState) (fromId : Int)
         (opUserId shortId : String), mapGet mappings shortId = none →
        apAction mappings bs fromId opUserId shortId
          = (bs, .staleMapping)) := by
  refine ⟨?_, mapGet_buildMappings, ?_, ?_⟩
  · intro u
    apply String.ext
    show (("TX_" ++ u).data.take 11)
        = ("TX_" ++ (⟨u.toList.take 8⟩ : String)).data
    rw [String.data_append, String.data_append]
    show (['T', 'X', '_'] ++ u.data).take 11
        = ['T', 'X', '_'] ++ u.data.take 8
    simp [List.take_append_eq_append_take]
  · intro ds s d h
    rw [mapGet_buildMappings] at h
    have hp := List.find?_some h
    have heq : shortTxId d = s := by simpa using hp
    exact ⟨heq, shortTxId_begins d s heq⟩
  · intro mappings bs fromId opUserId shortId h
    simp [apAction, h]

def bsC10 : BotState :=
  { store := [], screenshots := [], userStates := [], adminMsgs := [],
    callbacksSent := [] }

/-- C10 witness: concrete resolution of a recorded short id (the resolved
full id begins with it) and the stale reply for an unrecorded one. -/
theorem C10_witness :
    (shortTxId "TX_abcdefgh-123" = "TX_abcdefgh"
      ∧ ∃ r, "TX_abcdefgh-123" = "TX_abcdefgh" ++ r)
    ∧ apAction [] bsC10 1 "u" "TX_missing"
        = (bsC10, .staleMapping) := by
  refine ⟨?_, C10_short_id_mapping.2.2.2 [] bsC10 1 "u" "TX_missing"
    (by decide)⟩
  exact C10_short_id_mapping.2.2.1 ["TX_abcdefgh-123"] "TX_abcdefgh"
    "TX_abcdefgh-123" (by decide)

/-- C5 witness: with no users the valid request "T5a" ends FAILED with
nobody notified; with one sufficiently funded admin the request "T5b"
succeeds and notifies exactly that operator. -/
theorem C5_witness :
    (payoutCreate cfgW [] "T5a" bodyW []).response.reason = .noOperators
    ∧ (payoutCreate cfgW [] "T5a" bodyW []).notified = []
    ∧ (payoutCreate cfgW [opW] "T5b" bodyW []).response.status = 1
    ∧ (payoutCreate cfgW [opW] "T5b" bodyW []).notified = [77] := by
  have h1 := (C5_no_operators_failed cfgW [] "T5a" bodyW [] (by decide)
    (by decide) (by decide) (by decide)).1 (by decide)
  have h2 := (C5_no_operators_failed cfgW [opW] "T5b" bodyW [] (by decide)
    (by decide) (by decide) (by decide)).2 (by decide)
  exact ⟨h1.2.2.1, h1.2.2.2.2.1, h2.1, by
    rw [h2.2.2.2.1]
    decide⟩
